import Mathlib

/-!
The cdek-calculator-proxy: its token cache and its two request handlers.

A shallow embedding of `src/index.js`.

* JavaScript values that the program handles are JSON documents plus
  `undefined`; they are modelled by `JVal`.
* The module-level variables `cachedToken` / `cachedUntil` form the record
  `Cache`, threaded explicitly through every operation.
* `Date.now()` readings and the outcomes of the network calls
  (`fetch(...)` and `response.json()`) are inputs of the model: the program has no
  control over them, so every theorem quantifies over them.
* `getToken` is given twice: as a function for one call that runs without
  any other call in between, and as the transitions of a small event system
  (`step`) in which any number of calls are suspended at their `await`s and
  resumed in any order, which is how the single-threaded runtime executes
  overlapping calls.
-/

namespace CdekProxy

/-! ## JavaScript values -/

/-- JavaScript values reachable in this program: parsed JSON plus `undefined`.
Numbers are represented by integers; the program only ever tests a number
for being zero. An object is an association list in which the first binding
of a key is the one in force. -/
inductive JVal where
  | undefined
  | null
  | bool (b : Bool)
  | num (n : Int)
  | str (s : String)
  | arr (items : List JVal)
  | obj (fields : List (String × JVal))

/-- JavaScript truthiness (`ToBoolean`): `undefined`, `null`, `false`, `0` and
the empty string are falsy, every other value (arrays and objects included)
is truthy. -/
def truthy : JVal → Bool
  | .undefined => false
  | .null => false
  | .bool b => b
  | .num n => n != 0
  | .str s => s != ""
  | .arr _ => true
  | .obj _ => true

/-- Value bound to key `k` in a field list, `undefined` when there is none. -/
def lookup (k : String) : List (String × JVal) → JVal
  | [] => .undefined
  | (key, v) :: rest => if key = k then v else lookup k rest

/-- Property read `v.k` for the property names used by the program
(`access_token`, `tariff_code`, ...; none of them exists on a prototype):
reading from `null` or `undefined` throws a `TypeError` (`none`), reading from
an object looks the key up, reading from any other value gives `undefined`. -/
def readProp (v : JVal) (k : String) : Option JVal :=
  match v with
  | .undefined => none
  | .null => none
  | .obj fields => some (lookup k fields)
  | _ => some .undefined

/-- The JavaScript expression `a || b`. -/
def jsOr (a b : JVal) : JVal := if truthy a then a else b

/-- Builtins of the runtime that the program calls and whose results it only
passes on. -/
structure Builtins where
  /-- The function `JSON.stringify`. -/
  stringify : JVal → String
  /-- The function `Number(...)`. -/
  toNumber : JVal → JVal
  /-- Message of the `TypeError` raised by reading the named property of `null`. -/
  nullReadMessage : String → String

/-! ## Errors and network outcomes -/

/-- Exceptions that can be raised inside `getToken` and the handlers. -/
inductive JSError where
  /-- Line 38: `new Error("Ошибка авторизации: " + JSON.stringify(data))`. -/
  | authFailed (data : JVal)
  /-- The promise returned by `fetch(...)` rejected with this message. -/
  | transport (msg : String)
  /-- The promise returned by `response.json()` rejected with this message. -/
  | badBody (msg : String)
  /-- A property of `null` was read. -/
  | typeError (prop : String)

/-- Text placed before the payload in the error of line 38. -/
def AUTH_ERROR_TEXT : String := "Ошибка авторизации: "

/-- The `message` property of an exception. -/
def JSError.message (B : Builtins) : JSError → String
  | .authFailed data => AUTH_ERROR_TEXT ++ B.stringify data
  | .transport msg => msg
  | .badBody msg => msg
  | .typeError prop => B.nullReadMessage prop

/-- Outcome of one HTTP exchange: `await fetch(...)` followed by
`await response.json()`. -/
inductive Exchange where
  /-- The call `fetch(...)` rejects. -/
  | fetchRejects (msg : String)
  /-- A response with this status arrived; `body` is what `response.json()`
  settles to: the parsed document, or a rejection message. -/
  | response (status : Nat) (body : Except String JVal)

/-- The property `response.ok`: the status is in the range 200-299. -/
def respOk (status : Nat) : Bool := decide (200 ≤ status) && decide (status ≤ 299)

/-! ## The token cache -/

/-- The module-level variables of lines 12-13. -/
structure Cache where
  cachedToken : JVal
  cachedUntil : Nat

/-- State at process start: `cachedToken = null`, `cachedUntil = 0`. -/
def Cache.init : Cache := ⟨.null, 0⟩

/-- Line 41: `50 * 60 * 1000` milliseconds. -/
def SAFETY_WINDOW : Nat := 50 * 60 * 1000

/-- Condition of line 25: `cachedToken && now < cachedUntil`. -/
def cacheValid (c : Cache) (now : Nat) : Bool :=
  truthy c.cachedToken && decide (now < c.cachedUntil)

/-- Lines 37-42, run when `response.json()` settles: the result of the call and
the cache afterwards. `storeNow` is the reading of `Date.now()` at line 41. -/
def finishExchange (c : Cache) (status : Nat) (body : Except String JVal)
    (storeNow : Nat) : Except JSError JVal × Cache :=
  match body with
  | .error msg => (.error (.badBody msg), c)
  | .ok data =>
    if respOk status then
      match readProp data "access_token" with
      | none => (.error (.typeError "access_token"), c)
      | some t => (.ok t, ⟨t, storeNow + SAFETY_WINDOW⟩)
    else (.error (.authFailed data), c)

/-- Lines 27-42: the refresh path, for one exchange outcome. -/
def refresh (c : Cache) (ex : Exchange) (storeNow : Nat) : Except JSError JVal × Cache :=
  match ex with
  | .fetchRejects msg => (.error (.transport msg), c)
  | .response status body => finishExchange c status body storeNow

/-- What one `getToken()` call produced. -/
structure TokenOutcome where
  /-- The token the promise resolved to, or the exception it rejected with. -/
  result : Except JSError JVal
  /-- The cache after the call. -/
  cache : Cache
  /-- Number of requests sent to the OAuth endpoint. -/
  exchanges : Nat

/-- One `getToken()` call (lines 23-43) that is not interleaved with another:
`now` is `Date.now()` at line 24, `ex` the outcome of the OAuth exchange should
it be made, `storeNow` is `Date.now()` at line 41. -/
def getToken (c : Cache) (now : Nat) (ex : Exchange) (storeNow : Nat) : TokenOutcome :=
  if cacheValid c now then ⟨.ok c.cachedToken, c, 0⟩
  else
    let r := refresh c ex storeNow
    ⟨r.1, r.2, 1⟩

/-- A token as the data model describes it: a bearer string that is not empty. -/
def tokenPresent : JVal → Bool
  | .str s => s != ""
  | _ => false

/-! ## Overlapping calls

The runtime is single-threaded: a call runs without interruption until it
reaches an `await`, and is resumed when the awaited promise settles. `getToken`
has two such points (lines 27 and 37), so a call is always in one of the
phases below, and the system moves by one of three events. -/

/-- Where a `getToken()` call stands. -/
inductive Phase where
  /-- Suspended at line 27: the OAuth request is in flight. -/
  | fetching
  /-- Suspended at line 37: a response with this status arrived and its body is
  being read. -/
  | parsing (status : Nat)
  /-- The promise returned by the call has settled. -/
  | settled (result : Except JSError JVal)

/-- The cache together with all `getToken()` calls made so far. -/
structure Sys where
  cache : Cache
  /-- One entry per call, in the order the calls were made. -/
  calls : List Phase
  /-- Number of requests sent to the OAuth endpoint so far. -/
  exchanges : Nat
  /-- History of the executions of lines 40-41, latest first: each stored
  token with the `Date.now()` reading of line 41. It is not read by the
  program. -/
  stores : List (JVal × Nat)

/-- Process start: the initial cache, no call made. -/
def Sys.init : Sys := ⟨Cache.init, [], 0, []⟩

/-- What can happen next. -/
inductive Event where
  /-- A new `getToken()` call is made; `now` is `Date.now()` at line 24. -/
  | invoke (now : Nat)
  /-- The `fetch` of call `i` settles: it rejects with a message or resolves
  to a response with a status. -/
  | fetchSettles (i : Nat) (r : Except String Nat)
  /-- The `response.json()` of call `i` settles; `now` is `Date.now()` at
  line 41. -/
  | jsonSettles (i : Nat) (body : Except String JVal) (now : Nat)

/-- History after lines 37-42 ran with the given result: a result `ok t` means
lines 40-41 stored `t`. -/
def recordStore (r : Except JSError JVal) (now : Nat) (stores : List (JVal × Nat)) :
    List (JVal × Nat) :=
  match r with
  | .ok t => (t, now) :: stores
  | .error _ => stores

/-- One transition; `none` when the event cannot happen in this state (call `i`
is not suspended at the matching `await`). -/
def step (s : Sys) : Event → Option Sys
  | .invoke now =>
    if cacheValid s.cache now then
      some { s with calls := s.calls ++ [.settled (.ok s.cache.cachedToken)] }
    else
      some { s with calls := s.calls ++ [.fetching], exchanges := s.exchanges + 1 }
  | .fetchSettles i r =>
    match s.calls.get? i with
    | some .fetching =>
      match r with
      | .error msg => some { s with calls := s.calls.set i (.settled (.error (.transport msg))) }
      | .ok status => some { s with calls := s.calls.set i (.parsing status) }
    | _ => none
  | .jsonSettles i body now =>
    match s.calls.get? i with
    | some (.parsing status) =>
      let r := finishExchange s.cache status body now
      some { s with cache := r.2, calls := s.calls.set i (.settled r.1),
                    stores := recordStore r.1 now s.stores }
    | _ => none

/-- Run a sequence of events; `none` when one of them cannot happen. -/
def runEvents (s : Sys) : List Event → Option Sys
  | [] => some s
  | e :: es =>
    match step s e with
    | some next => runEvents next es
    | none => none

/-- Number of `invoke` events in a sequence. -/
def countInvokes : List Event → Nat
  | [] => 0
  | .invoke _ :: es => countInvokes es + 1
  | _ :: es => countInvokes es

/-- Every `invoke` of the sequence, run from `s`, happens at a moment when the
cache is empty or expired. -/
def invokesFindStale (s : Sys) : List Event → Bool
  | [] => true
  | e :: es =>
    (match e with
      | .invoke now => !cacheValid s.cache now
      | _ => true) &&
    (match step s e with
      | some next => invokesFindStale next es
      | none => true)

/-! ## The request handlers -/

/-- Requests the proxy sends upstream. -/
inductive Call where
  /-- The request of line 27 to the OAuth endpoint. -/
  | oauth
  /-- The request of line 56: the query parameters that were set and the token
  the `Authorization` header is built from. -/
  | cities (params : List (String × JVal)) (token : JVal)
  /-- The request of line 91: the payload and the token the `Authorization`
  header is built from. -/
  | tariff (payload : JVal) (token : JVal)

/-- Status and JSON body passed to `res.status(...).json(...)`. -/
structure Response where
  status : Nat
  body : JVal

/-- What one handler run produced. -/
structure HandlerOutcome where
  response : Response
  cache : Cache
  /-- Upstream requests sent, in order. -/
  calls : List Call

/-- Body of the `catch` blocks (lines 63 and 112): `{ ok: false, error: err.message }`. -/
def errorBody (msg : String) : JVal := .obj [("ok", .bool false), ("error", .str msg)]

/-- Message of line 72. -/
def MISSING_PARAMS : String := "Отсутствуют обязательные параметры"

/-- Lines 52-54: the query parameters forwarded upstream. -/
def cityParams (query : List (String × JVal)) : List (String × JVal) :=
  (if truthy (lookup "country_code" query) then [("country_code", lookup "country_code" query)]
    else []) ++
  (if truthy (lookup "city" query) then [("city", lookup "city" query)] else [])

/-- Handler of `GET /cities` (lines 49-65). `query` is `req.query`; `now`, `ex`,
`storeNow` are the inputs of the `getToken()` call; `up` is the outcome of the
city-lookup exchange should it be made. -/
def citiesHandler (B : Builtins) (c : Cache) (query : List (String × JVal))
    (now : Nat) (ex : Exchange) (storeNow : Nat) (up : Exchange) : HandlerOutcome :=
  let t := getToken c now ex storeNow
  let authCalls := List.replicate t.exchanges Call.oauth
  match t.result with
  | .error e => ⟨⟨500, errorBody (e.message B)⟩, t.cache, authCalls⟩
  | .ok token =>
    let calls := authCalls ++ [Call.cities (cityParams query) token]
    match up with
    | .fetchRejects msg => ⟨⟨500, errorBody msg⟩, t.cache, calls⟩
    | .response status body =>
      match body with
      | .error msg => ⟨⟨500, errorBody msg⟩, t.cache, calls⟩
      | .ok data => ⟨⟨if respOk status then 200 else status, data⟩, t.cache, calls⟩

/-- Lines 77-89: the payload sent to the tariff calculator. -/
def calcPayload (B : Builtins) (body : List (String × JVal)) : JVal :=
  .obj [("type", .num 1),
        ("currency", .num 1),
        ("tariff_code", lookup "tariff_code" body),
        ("from_location", .obj [("code", B.toNumber (lookup "from_code" body))]),
        ("to_location", .obj [("code", B.toNumber (lookup "to_code" body))]),
        ("packages", .arr [.obj [
          ("weight", B.toNumber (lookup "weight" body)),
          ("length", B.toNumber (jsOr (lookup "length" body) (.num 0))),
          ("width", B.toNumber (jsOr (lookup "width" body) (.num 0))),
          ("height", B.toNumber (jsOr (lookup "height" body) (.num 0)))]])]

/-- Condition of line 71. -/
def missingRequired (body : List (String × JVal)) : Bool :=
  !truthy (lookup "from_code" body) || !truthy (lookup "to_code" body) ||
  !truthy (lookup "weight" body) || !truthy (lookup "tariff_code" body)

/-- Lines 103-110: the success body built from the upstream document, `none`
when reading its first property throws (the document is `null`). -/
def calcSuccessBody (data : JVal) : Option JVal :=
  match readProp data "tariff_code", readProp data "tariff_name", readProp data "delivery_sum",
        readProp data "period_min", readProp data "period_max" with
  | some tc, some tn, some ds, some pmin, some pmax =>
    some (.obj [("ok", .bool true), ("tariff_code", tc), ("tariff_name", tn),
                ("delivery_sum", ds), ("period_min", pmin), ("period_max", pmax)])
  | _, _, _, _, _ => none

/-- Handler of `POST /calc` (lines 67-114). `body` holds the fields of
`req.body`, the object that `express.json()` parsed (no field when no JSON
body was sent); the other arguments are as for `citiesHandler`, `up` being the
outcome of the tariff-calculator exchange. -/
def calcHandler (B : Builtins) (c : Cache) (body : List (String × JVal))
    (now : Nat) (ex : Exchange) (storeNow : Nat) (up : Exchange) : HandlerOutcome :=
  if missingRequired body then
    ⟨⟨400, errorBody MISSING_PARAMS⟩, c, []⟩
  else
    let t := getToken c now ex storeNow
    let authCalls := List.replicate t.exchanges Call.oauth
    match t.result with
    | .error e => ⟨⟨500, errorBody (e.message B)⟩, t.cache, authCalls⟩
    | .ok token =>
      let calls := authCalls ++ [Call.tariff (calcPayload B body) token]
      match up with
      | .fetchRejects msg => ⟨⟨500, errorBody msg⟩, t.cache, calls⟩
      | .response status upBody =>
        match upBody with
        | .error msg => ⟨⟨500, errorBody msg⟩, t.cache, calls⟩
        | .ok data =>
          if respOk status then
            match calcSuccessBody data with
            | some okBody => ⟨⟨200, okBody⟩, t.cache, calls⟩
            | none => ⟨⟨500, errorBody (B.nullReadMessage "tariff_code")⟩, t.cache, calls⟩
          else ⟨⟨status, .obj [("ok", .bool false), ("error", data)]⟩, t.cache, calls⟩

/-- A runtime used to evaluate the handlers on concrete inputs: numbers are
printed as `n`, everything else as `v`. -/
def sampleBuiltins : Builtins :=
  { stringify := fun v => match v with
      | .num _ => "n"
      | _ => "v",
    toNumber := fun v => match v with
      | .num n => .num n
      | _ => .num 0,
    nullReadMessage := fun prop => "cannot read " ++ prop }

/-- An exchange that did not succeed: the network call failed, the body could
not be parsed, or the status is not a success status. -/
def unsuccessful : Exchange → Bool
  | .fetchRejects _ => true
  | .response _ (.error _) => true
  | .response status (.ok _) => !respOk status

/-- The error that reports an unsuccessful exchange: the transport or parse
failure, or the payload the upstream sent with its non-success status. -/
def exchangeError : Exchange → JSError
  | .fetchRejects msg => .transport msg
  | .response _ (.error msg) => .badBody msg
  | .response _ (.ok data) => .authFailed data

/-- The cache is what the latest execution of lines 40-41 left: the initial
cache when there was none, otherwise the stored token with the window added to
the instant of the store. -/
def storesAgree (s : Sys) : Prop :=
  match s.stores with
  | [] => s.cache = Cache.init
  | (t, T) :: _ => s.cache = ⟨t, T + SAFETY_WINDOW⟩

/-- Two calls made on the empty cache before either exchange settles; the
upstream answers the first with token `A` and the second with token `B`. -/
def overlappingCalls : List Event :=
  [.invoke 0, .invoke 0,
   .fetchSettles 0 (.ok 200), .fetchSettles 1 (.ok 200),
   .jsonSettles 0 (.ok (.obj [("access_token", .str "A")])) 5,
   .jsonSettles 1 (.ok (.obj [("access_token", .str "B")])) 6]

/-- A success response of the OAuth endpoint whose body has no `access_token`. -/
def tokenlessSuccess : Exchange :=
  .response 200 (.ok (.obj [("token_type", .str "bearer")]))

/-- Three calls made on the empty cache before any exchange settles. -/
def threeInvokes : List Event := [.invoke 0, .invoke 3, .invoke 4]

/-- A request field that is absent (`undefined` or `null`) or empty (the empty
string). -/
def absentOrEmpty : JVal → Bool
  | .undefined => true
  | .null => true
  | .str s => s == ""
  | _ => false

/-- The four fields that line 71 tests. -/
def REQUIRED : List String := ["from_code", "to_code", "weight", "tariff_code"]

/-- The value of `d.k` where the read does not throw, `undefined` otherwise. -/
def propOf (d : JVal) (k : String) : JVal := (readProp d k).getD .undefined

/-- A `/calc` body whose four required fields are all there, with weight `0`. -/
def zeroWeightBody : List (String × JVal) :=
  [("from_code", .str "44"), ("to_code", .str "137"), ("weight", .num 0),
   ("tariff_code", .str "136")]

/-- A `/calc` body whose four required fields are non-empty strings. -/
def completeBody : List (String × JVal) :=
  [("from_code", .str "44"), ("to_code", .str "137"), ("weight", .str "500"),
   ("tariff_code", .str "136")]

/-- A success response of the OAuth endpoint carrying the token `tok`. -/
def tokenGranted : Exchange := .response 200 (.ok (.obj [("access_token", .str "tok")]))

/-- A non-success response of the OAuth endpoint with a JSON payload. -/
def tokenDenied : Exchange := .response 401 (.ok (.obj [("error", .str "invalid_client")]))

/-- The `/calc` body of the validation example: `from_code` is missing. -/
def noFromCodeBody : List (String × JVal) :=
  [("to_code", .str "1"), ("weight", .str "1"), ("tariff_code", .str "1")]

/-- The tariff document of the happy-path example, with one more field. -/
def tariffDoc : JVal :=
  .obj [("tariff_code", .num 1), ("tariff_name", .str "X"), ("delivery_sum", .num 100),
        ("period_min", .num 1), ("period_max", .num 3), ("currency", .str "RUB")]

/-- The success body of lines 103-110 written with the properties of `d`. -/
def calcOkBody (d : JVal) : JVal :=
  .obj [("ok", .bool true), ("tariff_code", propOf d "tariff_code"),
        ("tariff_name", propOf d "tariff_name"), ("delivery_sum", propOf d "delivery_sum"),
        ("period_min", propOf d "period_min"), ("period_max", propOf d "period_max")]

/-! ## Basic facts -/

theorem safety_window_eq : SAFETY_WINDOW = 3000000 := by decide

theorem tokenPresent_truthy {v : JVal} (h : tokenPresent v = true) : truthy v = true := by
  cases v <;> simp_all [tokenPresent, truthy]

theorem cacheValid_of_present {c : Cache} {now : Nat}
    (htok : tokenPresent c.cachedToken = true) (hnow : now < c.cachedUntil) :
    cacheValid c now = true := by
  simp [cacheValid, tokenPresent_truthy htok, hnow]

theorem cacheValid_stale_later {c : Cache} {now later : Nat}
    (hstale : cacheValid c now = false) (hle : now ≤ later) : cacheValid c later = false := by
  simp only [cacheValid, Bool.and_eq_false_iff, decide_eq_false_iff_not] at hstale ⊢
  rcases hstale with h | h
  · exact Or.inl h
  · exact Or.inr (by omega)

theorem getToken_of_valid {c : Cache} {now : Nat} (h : cacheValid c now = true)
    (ex : Exchange) (storeNow : Nat) : getToken c now ex storeNow = ⟨.ok c.cachedToken, c, 0⟩ := by
  simp [getToken, h]

theorem getToken_of_stale {c : Cache} {now : Nat} (h : cacheValid c now = false)
    (ex : Exchange) (storeNow : Nat) :
    getToken c now ex storeNow = ⟨(refresh c ex storeNow).1, (refresh c ex storeNow).2, 1⟩ := by
  simp [getToken, h]

/-- The result of the refresh path does not depend on what the cache held. -/
theorem refresh_result_indep (c d : Cache) (ex : Exchange) (storeNow : Nat) :
    (refresh c ex storeNow).1 = (refresh d ex storeNow).1 := by
  cases ex with
  | fetchRejects msg => rfl
  | response status body =>
    cases body with
    | error msg => rfl
    | ok data =>
      simp only [refresh, finishExchange]
      split
      · split <;> rfl
      · rfl

/-- A refresh that resolves to `t` came from a success-status response whose
body has `t` as `access_token`, and it stored `t` with the window added to the
instant of the store. -/
theorem refresh_ok_inv {c : Cache} {ex : Exchange} {storeNow : Nat} {t : JVal}
    (h : (refresh c ex storeNow).1 = .ok t) :
    (∃ status data, ex = .response status (.ok data) ∧ respOk status = true ∧
      readProp data "access_token" = some t) ∧
    (refresh c ex storeNow).2 = ⟨t, storeNow + SAFETY_WINDOW⟩ := by
  cases ex with
  | fetchRejects msg => simp [refresh] at h
  | response status body =>
    cases body with
    | error msg => simp [refresh, finishExchange] at h
    | ok data =>
      simp only [refresh, finishExchange] at h ⊢
      by_cases hok : respOk status = true
      · simp only [hok, if_true] at h ⊢
        cases hp : readProp data "access_token" with
        | none => simp [hp] at h
        | some u =>
          simp only [hp, Except.ok.injEq] at h ⊢
          subst h
          exact ⟨⟨status, data, rfl, hok, hp⟩, rfl⟩
      · simp [hok] at h

/-- A refresh that fails leaves the cache as it was. -/
theorem refresh_error_cache {c : Cache} {ex : Exchange} {storeNow : Nat} {e : JSError}
    (h : (refresh c ex storeNow).1 = .error e) : (refresh c ex storeNow).2 = c := by
  cases ex with
  | fetchRejects msg => rfl
  | response status body =>
    cases body with
    | error msg => rfl
    | ok data =>
      simp only [refresh, finishExchange] at h ⊢
      by_cases hok : respOk status = true
      · simp only [hok, if_true] at h ⊢
        cases hp : readProp data "access_token" with
        | none => simp
        | some u => simp [hp] at h
      · simp [hok]

theorem refresh_unsuccessful {c : Cache} {ex : Exchange} (storeNow : Nat)
    (h : unsuccessful ex = true) : refresh c ex storeNow = (.error (exchangeError ex), c) := by
  cases ex with
  | fetchRejects msg => rfl
  | response status body =>
    cases body with
    | error msg => rfl
    | ok data =>
      simp only [unsuccessful, Bool.not_eq_true'] at h
      simp [refresh, finishExchange, h, exchangeError]

/-! ## The token cache: one call at a time -/

/-- C1 (fast path). In every cache state that holds a token (a non-empty
string), at every instant `now` strictly before `cachedUntil`, `getToken`
resolves to exactly the cached token, sends no request to the OAuth endpoint and
leaves `cachedToken` and `cachedUntil` as they were; this is so whatever the
upstream would have answered, and a call made among overlapping calls settles
on the spot in the same way. -/
theorem getToken_fast_path (c : Cache) (now : Nat) (ex : Exchange) (storeNow : Nat)
    (htok : tokenPresent c.cachedToken = true) (hnow : now < c.cachedUntil) :
    (getToken c now ex storeNow).result = .ok c.cachedToken ∧
    (getToken c now ex storeNow).exchanges = 0 ∧
    (getToken c now ex storeNow).cache = c ∧
    ∀ (calls : List Phase) (n : Nat) (stores : List (JVal × Nat)),
      step ⟨c, calls, n, stores⟩ (.invoke now)
        = some ⟨c, calls ++ [.settled (.ok c.cachedToken)], n, stores⟩ := by
  have hv := cacheValid_of_present htok hnow
  rw [getToken_of_valid hv]
  refine ⟨rfl, rfl, rfl, ?_⟩
  intro calls n stores
  simp [step, hv]

theorem getToken_fast_path_witness :
    (getToken ⟨.str "abc", 3000007⟩ 3000006 (.fetchRejects "down") 9).result = .ok (.str "abc") ∧
    (getToken ⟨.str "abc", 3000007⟩ 3000006 (.fetchRejects "down") 9).exchanges = 0 :=
  have h := getToken_fast_path ⟨.str "abc", 3000007⟩ 3000006 (.fetchRejects "down") 9
    (by decide) (by decide)
  ⟨h.1, h.2.1⟩

/-- C2 (expiry respected). Let a refresh store a token `t0` at instant `T0`, so
that the cache holds `t0` with `cachedUntil = T0 + 3000000`. Every `getToken`
call made on that cache at an instant `now ≥ T0 + 3000000` does not take the
fast path: it sends exactly one request to the OAuth endpoint, its result is
the one an empty cache would have produced from that exchange, and any token
it resolves to is the `access_token` of the new success response. -/
theorem getToken_expiry_respected (c0 : Cache) (now0 : Nat) (ex0 : Exchange) (T0 : Nat)
    (t0 : JVal) (hstale : cacheValid c0 now0 = false)
    (hstored : (getToken c0 now0 ex0 T0).result = .ok t0)
    (now : Nat) (ex : Exchange) (storeNow : Nat) (hnow : T0 + 3000000 ≤ now) :
    (getToken c0 now0 ex0 T0).cache = ⟨t0, T0 + 3000000⟩ ∧
    cacheValid (getToken c0 now0 ex0 T0).cache now = false ∧
    (getToken (getToken c0 now0 ex0 T0).cache now ex storeNow).exchanges = 1 ∧
    (getToken (getToken c0 now0 ex0 T0).cache now ex storeNow).result
      = (getToken Cache.init now ex storeNow).result ∧
    ∀ v, (getToken (getToken c0 now0 ex0 T0).cache now ex storeNow).result = .ok v →
      ∃ status data, ex = .response status (.ok data) ∧ respOk status = true ∧
        readProp data "access_token" = some v := by
  rw [getToken_of_stale hstale] at hstored ⊢
  simp only at hstored ⊢
  have hc := (refresh_ok_inv hstored).2
  rw [safety_window_eq] at hc
  rw [hc]
  have hexp : cacheValid ⟨t0, T0 + 3000000⟩ now = false := by
    simp only [cacheValid, Bool.and_eq_false_iff, decide_eq_false_iff_not]
    exact Or.inr (by omega)
  have hinit : cacheValid Cache.init now = false := by simp [cacheValid, Cache.init, truthy]
  rw [getToken_of_stale hexp, getToken_of_stale hinit]
  refine ⟨rfl, hexp, rfl, refresh_result_indep _ _ _ _, ?_⟩
  intro v hv
  exact (refresh_ok_inv hv).1

theorem getToken_expiry_respected_witness :
    (getToken (getToken Cache.init 10 (.response 200 (.ok (.obj [("access_token", .str "old")]))) 12).cache
      3000012 (.response 200 (.ok (.obj [("access_token", .str "new")]))) 3000020).exchanges = 1 :=
  (getToken_expiry_respected Cache.init 10
    (.response 200 (.ok (.obj [("access_token", .str "old")]))) 12 (.str "old")
    (by decide) (by rfl) 3000012
    (.response 200 (.ok (.obj [("access_token", .str "new")]))) 3000020 (by decide)).2.2.1

/-- C3 (a failed exchange is atomic). For every cache state and every
`getToken` call that takes the refresh path and whose exchange is unsuccessful
(the network call fails, the body cannot be parsed, or the status is not a
success status), the call sends one request and fails with the error carrying
the transport failure or the upstream payload, and `cachedToken` and
`cachedUntil` are exactly what they were; hence a next call, at any instant
not earlier, sends one request again. -/
theorem getToken_failed_exchange_atomic (c : Cache) (now : Nat) (ex : Exchange) (storeNow : Nat)
    (hstale : cacheValid c now = false) (hfail : unsuccessful ex = true) :
    (getToken c now ex storeNow).result = .error (exchangeError ex) ∧
    (getToken c now ex storeNow).cache = c ∧
    (getToken c now ex storeNow).exchanges = 1 ∧
    ∀ (later : Nat) (ex2 : Exchange) (storeNow2 : Nat), now ≤ later →
      (getToken (getToken c now ex storeNow).cache later ex2 storeNow2).exchanges = 1 := by
  rw [getToken_of_stale hstale, refresh_unsuccessful storeNow hfail]
  refine ⟨rfl, rfl, rfl, ?_⟩
  intro later ex2 storeNow2 hle
  rw [getToken_of_stale (cacheValid_stale_later hstale hle)]

theorem getToken_failed_exchange_atomic_witness :
    (getToken ⟨.str "abc", 50⟩ 60 (.response 401 (.ok (.obj [("error", .str "invalid_client")]))) 61).result
      = .error (.authFailed (.obj [("error", .str "invalid_client")])) ∧
    (getToken ⟨.str "abc", 50⟩ 60 (.response 401 (.ok (.obj [("error", .str "invalid_client")]))) 61).cache
      = ⟨.str "abc", 50⟩ :=
  have h := getToken_failed_exchange_atomic ⟨.str "abc", 50⟩ 60
    (.response 401 (.ok (.obj [("error", .str "invalid_client")]))) 61 (by decide) (by decide)
  ⟨h.1, h.2.1⟩

/-! ## The token cache: overlapping calls -/

theorem finishExchange_cases (c : Cache) (status : Nat) (body : Except String JVal) (now : Nat) :
    (∃ t, finishExchange c status body now = (.ok t, ⟨t, now + SAFETY_WINDOW⟩)) ∨
    (∃ e, finishExchange c status body now = (.error e, c)) := by
  cases body with
  | error msg => exact Or.inr ⟨_, rfl⟩
  | ok data =>
    simp only [finishExchange]
    by_cases hok : respOk status = true
    · simp only [hok, if_true]
      cases readProp data "access_token" with
      | none => exact Or.inr ⟨_, rfl⟩
      | some t => exact Or.inl ⟨t, rfl⟩
    · simp only [hok]
      exact Or.inr ⟨_, rfl⟩

theorem storesAgree_init : storesAgree Sys.init := by
  simp [storesAgree, Sys.init]

theorem storesAgree_step {s next : Sys} {e : Event} (h : storesAgree s)
    (hstep : step s e = some next) : storesAgree next := by
  cases e with
  | invoke now =>
    simp only [step] at hstep
    split at hstep <;>
      (simp only [Option.some.injEq] at hstep; subst hstep; simpa [storesAgree] using h)
  | fetchSettles i r =>
    simp only [step] at hstep
    split at hstep
    · split at hstep <;>
        (simp only [Option.some.injEq] at hstep; subst hstep; simpa [storesAgree] using h)
    · simp at hstep
  | jsonSettles i body now =>
    simp only [step] at hstep
    split at hstep
    · rename_i status _
      simp only [Option.some.injEq] at hstep
      subst hstep
      rcases finishExchange_cases s.cache status body now with ⟨t, ht⟩ | ⟨e, he⟩
      · simp [storesAgree, ht, recordStore]
      · simpa [storesAgree, he, recordStore] using h
    · simp at hstep

theorem storesAgree_run {evs : List Event} {s final : Sys} (h : storesAgree s)
    (hrun : runEvents s evs = some final) : storesAgree final := by
  induction evs generalizing s with
  | nil =>
    simp only [runEvents, Option.some.injEq] at hrun
    exact hrun ▸ h
  | cons e es ih =>
    simp only [runEvents] at hrun
    cases hs : step s e with
    | none => simp [hs] at hrun
    | some next =>
      simp only [hs] at hrun
      exact ih (storesAgree_step h hs) hrun

theorem step_exchanges {s next : Sys} {e : Event} (hstep : step s e = some next) :
    (next.exchanges = s.exchanges + countInvokes [e] ∨
      (next.exchanges = s.exchanges ∧ ∃ now, e = .invoke now ∧ cacheValid s.cache now = true)) ∧
    next.calls.length = s.calls.length + countInvokes [e] := by
  cases e with
  | invoke now =>
    simp only [step] at hstep
    split at hstep
    · rename_i hv
      simp only [Option.some.injEq] at hstep
      subst hstep
      exact ⟨Or.inr ⟨rfl, now, rfl, hv⟩, by simp [countInvokes]⟩
    · simp only [Option.some.injEq] at hstep
      subst hstep
      exact ⟨Or.inl (by simp [countInvokes]), by simp [countInvokes]⟩
  | fetchSettles i r =>
    simp only [step] at hstep
    split at hstep
    · split at hstep <;>
        (simp only [Option.some.injEq] at hstep; subst hstep
         exact ⟨Or.inl (by simp [countInvokes]), by simp [countInvokes]⟩)
    · simp at hstep
  | jsonSettles i body now =>
    simp only [step] at hstep
    split at hstep
    · simp only [Option.some.injEq] at hstep
      subst hstep
      exact ⟨Or.inl (by simp [countInvokes]), by simp [countInvokes]⟩
    · simp at hstep

theorem countInvokes_cons (e : Event) (es : List Event) :
    countInvokes (e :: es) = countInvokes [e] + countInvokes es := by
  cases e <;> simp [countInvokes, Nat.add_comm]

theorem run_exchanges {evs : List Event} {s final : Sys}
    (hrun : runEvents s evs = some final) (hstale : invokesFindStale s evs = true) :
    final.exchanges = s.exchanges + countInvokes evs ∧
    final.calls.length = s.calls.length + countInvokes evs := by
  induction evs generalizing s with
  | nil =>
    simp only [runEvents, Option.some.injEq] at hrun
    subst hrun
    simp [countInvokes]
  | cons e es ih =>
    simp only [runEvents] at hrun
    cases hs : step s e with
    | none => simp [hs] at hrun
    | some next =>
      simp only [hs] at hrun
      simp only [invokesFindStale, hs, Bool.and_eq_true] at hstale
      obtain ⟨hhere, hrest⟩ := hstale
      obtain ⟨hex, hlen⟩ := step_exchanges hs
      obtain ⟨ih1, ih2⟩ := ih hrun hrest
      rw [countInvokes_cons]
      refine ⟨?_, by omega⟩
      rcases hex with hex | ⟨_, now, rfl, hv⟩
      · omega
      · simp [hv] at hhere

theorem get?_concat_length (calls : List Phase) (x : Phase) :
    (calls ++ [x]).get? calls.length = some x := by
  simp

theorem set_concat_length (calls : List Phase) (x y : Phase) :
    (calls ++ [x]).set calls.length y = calls ++ [y] := by
  induction calls with
  | nil => rfl
  | cons a rest ih => simp [List.set, ih]

/-- A call that runs alone through its two suspension points does what
`getToken` says: the function is the event system restricted to one call at a
time. -/
theorem getToken_refines_events (c : Cache) (calls : List Phase) (n : Nat)
    (stores : List (JVal × Nat)) (now status : Nat) (body : Except String JVal)
    (storeNow : Nat) (hstale : cacheValid c now = false) :
    runEvents ⟨c, calls, n, stores⟩
        [.invoke now, .fetchSettles calls.length (.ok status),
         .jsonSettles calls.length body storeNow]
      = some ⟨(getToken c now (.response status body) storeNow).cache,
          calls ++ [.settled (getToken c now (.response status body) storeNow).result],
          n + (getToken c now (.response status body) storeNow).exchanges,
          recordStore (getToken c now (.response status body) storeNow).result storeNow
            stores⟩ := by
  rw [getToken_of_stale hstale]
  simp only [runEvents, step, hstale, Bool.false_eq_true, if_false, get?_concat_length,
    set_concat_length, refresh]

/-- The same when the network call fails: the call settles at its first
suspension point. -/
theorem getToken_refines_events_rejected (c : Cache) (calls : List Phase) (n : Nat)
    (stores : List (JVal × Nat)) (now : Nat) (msg : String) (storeNow : Nat)
    (hstale : cacheValid c now = false) :
    runEvents ⟨c, calls, n, stores⟩ [.invoke now, .fetchSettles calls.length (.error msg)]
      = some ⟨(getToken c now (.fetchRejects msg) storeNow).cache,
          calls ++ [.settled (getToken c now (.fetchRejects msg) storeNow).result],
          n + (getToken c now (.fetchRejects msg) storeNow).exchanges, stores⟩ := by
  rw [getToken_of_stale hstale]
  simp only [runEvents, step, hstale, Bool.false_eq_true, if_false, get?_concat_length,
    set_concat_length, refresh]

/-- In every state reachable from process start, a call that takes the fast
path at instant `now` returns the token stored latest, and `now` is strictly
before the instant of that store plus the window: no interleaving lets a call
return a token past its recorded expiry. -/
theorem fast_path_token_not_expired (evs : List Event) (s : Sys) (now : Nat)
    (hrun : runEvents Sys.init evs = some s) (hvalid : cacheValid s.cache now = true) :
    ∃ T rest, s.stores = (s.cache.cachedToken, T) :: rest ∧ now < T + 3000000 := by
  have hagree := storesAgree_run storesAgree_init hrun
  unfold storesAgree at hagree
  cases hst : s.stores with
  | nil =>
    simp only [hst] at hagree
    rw [hagree] at hvalid
    simp [cacheValid, Cache.init, truthy] at hvalid
  | cons p rest =>
    obtain ⟨t, T⟩ := p
    simp only [hst] at hagree
    rw [hagree] at hvalid ⊢
    simp only [cacheValid, Bool.and_eq_true, decide_eq_true_eq, safety_window_eq] at hvalid
    exact ⟨T, rest, rfl, hvalid.2⟩

/-- C5 (successful refresh and cache invariant). Every `getToken` call that
takes the refresh path and whose exchange succeeds with access token `t`
resolves to `t`, sends one request, and leaves `cachedToken = t` and
`cachedUntil = storeNow + 3000000`, where `storeNow` is the instant of the store
and nothing else of the response is used; among overlapping calls the same
two fields are replaced in a single transition. Hence in every state
reachable from process start in which a token is present, that token is the
one stored latest, at some instant `T`, and `cachedUntil = T + 3000000`. -/
theorem refresh_success_and_invariant :
    (∀ (c : Cache) (now status : Nat) (data t : JVal) (storeNow : Nat),
      cacheValid c now = false → respOk status = true →
      readProp data "access_token" = some t →
      getToken c now (.response status (.ok data)) storeNow
          = ⟨.ok t, ⟨t, storeNow + 3000000⟩, 1⟩ ∧
      ∀ (calls : List Phase) (n i : Nat) (stores : List (JVal × Nat)),
        calls.get? i = some (.parsing status) →
        step ⟨c, calls, n, stores⟩ (.jsonSettles i (.ok data) storeNow)
          = some ⟨⟨t, storeNow + 3000000⟩, calls.set i (.settled (.ok t)), n,
                  (t, storeNow) :: stores⟩) ∧
    (∀ (evs : List Event) (s : Sys),
      runEvents Sys.init evs = some s → tokenPresent s.cache.cachedToken = true →
      ∃ T rest, s.stores = (s.cache.cachedToken, T) :: rest ∧
        s.cache.cachedUntil = T + 3000000) := by
  constructor
  · intro c now status data t storeNow hstale hok hprop
    constructor
    · rw [getToken_of_stale hstale]
      simp [refresh, finishExchange, hok, hprop, safety_window_eq]
    · intro calls n i stores hget
      simp only [step, hget]
      simp [finishExchange, hok, hprop, recordStore, safety_window_eq]
  · intro evs s hrun hpresent
    have hagree := storesAgree_run storesAgree_init hrun
    unfold storesAgree at hagree
    cases hst : s.stores with
    | nil =>
      simp only [hst] at hagree
      rw [hagree] at hpresent
      simp [Cache.init, tokenPresent] at hpresent
    | cons p rest =>
      obtain ⟨t, T⟩ := p
      simp only [hst] at hagree
      refine ⟨T, rest, ?_, ?_⟩
      · rw [hagree]
      · rw [hagree, safety_window_eq]

theorem refresh_success_and_invariant_witness :
    getToken Cache.init 10 (.response 200 (.ok (.obj [("access_token", .str "abc"),
        ("expires_in", .num 3599)]))) 12 = ⟨.ok (.str "abc"), ⟨.str "abc", 3000012⟩, 1⟩ ∧
    ∃ T rest, ([(.str "B", 6), (.str "A", 5)] : List (JVal × Nat)) = (.str "B", T) :: rest ∧
      3000006 = T + 3000000 :=
  ⟨(refresh_success_and_invariant.1 Cache.init 10 200
      (.obj [("access_token", .str "abc"), ("expires_in", .num 3599)]) (.str "abc") 12
      (by decide) (by decide) (by rfl)).1,
   refresh_success_and_invariant.2 overlappingCalls
      ⟨⟨.str "B", 3000006⟩, [.settled (.ok (.str "A")), .settled (.ok (.str "B"))], 2,
        [(.str "B", 6), (.str "A", 5)]⟩ (by rfl) (by decide)⟩

/-- C6, as stated, fails: two calls made on the empty cache before either
exchange settles both find the cache empty, two requests go to the
OAuth endpoint, and the calls resolve to different tokens. -/
theorem overlapping_calls_refresh_twice :
    invokesFindStale Sys.init overlappingCalls = true ∧
    (runEvents Sys.init overlappingCalls).map (fun s => s.exchanges) = some 2 ∧
    (runEvents Sys.init overlappingCalls).map (fun s => s.calls)
      = some [.settled (.ok (.str "A")), .settled (.ok (.str "B"))] ∧
    (runEvents Sys.init [.invoke 0, .invoke 0]).map (fun s => s.calls)
      = some [.fetching, .fetching] := by
  refine ⟨by rfl, by rfl, by rfl, by rfl⟩

/-- C6, amended. In every interleaving in which each `getToken` call is made
while the cache is empty or expired, every call sends its own request to the
OAuth endpoint: after the run the number of requests has grown by exactly the
number of calls made (so by one only when a single call was made), and a call
whose success response carries access token `t` resolves to `t`, the token of
its own exchange. -/
theorem stale_calls_each_refresh (s : Sys) (evs : List Event) (final : Sys)
    (hrun : runEvents s evs = some final) (hstale : invokesFindStale s evs = true) :
    final.exchanges = s.exchanges + countInvokes evs ∧
    final.calls.length = s.calls.length + countInvokes evs ∧
    ∀ (i status : Nat) (data t : JVal) (now : Nat),
      final.calls.get? i = some (.parsing status) → respOk status = true →
      readProp data "access_token" = some t →
      ∃ next, step final (.jsonSettles i (.ok data) now) = some next ∧
        next.calls.get? i = some (.settled (.ok t)) := by
  obtain ⟨h1, h2⟩ := run_exchanges hrun hstale
  refine ⟨h1, h2, ?_⟩
  intro i status data t now hget hok hprop
  have hstep : step final (.jsonSettles i (.ok data) now)
      = some { final with
          cache := (finishExchange final.cache status (.ok data) now).2,
          calls := final.calls.set i (.settled (finishExchange final.cache status (.ok data) now).1),
          stores := recordStore (finishExchange final.cache status (.ok data) now).1 now
            final.stores } := by
    simp only [step, hget]
  refine ⟨_, hstep, ?_⟩
  have hlt : i < final.calls.length := by
    rcases Nat.lt_or_ge i final.calls.length with h | h
    · exact h
    · rw [List.get?_eq_none.mpr h] at hget
      cases hget
  simp [finishExchange, hok, hprop, List.getElem?_set_self, hlt]

theorem stale_calls_each_refresh_witness :
    (3 : Nat) = 0 + countInvokes threeInvokes ∧
    ([.fetching, .fetching, .fetching] : List Phase).length = 0 + countInvokes threeInvokes :=
  have h := stale_calls_each_refresh Sys.init threeInvokes
    ⟨Cache.init, [.fetching, .fetching, .fetching], 3, []⟩ (by rfl) (by rfl)
  ⟨h.1, h.2.1⟩

/-- C4, as stated, fails: a success-status response whose body has no
`access_token` is not rejected. `getToken` resolves to `undefined`, which is
not a token, stores it, and the `/cities` handler goes on to send a request
whose `Authorization` header is built from `undefined`. -/
theorem getToken_resolves_undefined :
    (getToken Cache.init 0 tokenlessSuccess 5).result = .ok .undefined ∧
    (getToken Cache.init 0 tokenlessSuccess 5).cache = ⟨.undefined, 3000005⟩ ∧
    tokenPresent .undefined = false ∧
    (citiesHandler sampleBuiltins Cache.init [] 0 tokenlessSuccess 5
        (.response 200 (.ok (.arr [])))).calls = [.oauth, .cities [] .undefined] := by
  refine ⟨by rfl, by rfl, by rfl, by rfl⟩

/-- C4, amended. For every cache state, instant and OAuth outcome, `getToken`
does one of three things: it fails with an error and leaves the cache as it
was; or it resolves, without any request, to the cached value, which is truthy
and so neither `null`, `undefined` nor the empty string; or, after a
success-status response whose body parsed, it resolves to that body's
`access_token` and stores the same value. So the token is present whenever a
success body carries a non-empty string as `access_token`. A success-status
response whose body cannot be parsed, or is `null`, makes the call fail and is
not stored. -/
theorem getToken_result_cases (c : Cache) (now storeNow : Nat) :
    (∀ ex : Exchange,
      (∃ e, (getToken c now ex storeNow).result = .error e ∧
        (getToken c now ex storeNow).cache = c) ∨
      ((getToken c now ex storeNow).result = .ok c.cachedToken ∧
        (getToken c now ex storeNow).exchanges = 0 ∧
        (getToken c now ex storeNow).cache = c ∧
        truthy c.cachedToken = true ∧ c.cachedToken ≠ .null ∧
        c.cachedToken ≠ .undefined ∧ c.cachedToken ≠ .str "") ∨
      (∃ status data t, ex = .response status (.ok data) ∧ respOk status = true ∧
        readProp data "access_token" = some t ∧
        (getToken c now ex storeNow).result = .ok t ∧
        (getToken c now ex storeNow).cache = ⟨t, storeNow + 3000000⟩)) ∧
    (∀ (status : Nat) (data : JVal) (tok : String), cacheValid c now = false →
      respOk status = true → readProp data "access_token" = some (.str tok) → tok ≠ "" →
      ∃ t, (getToken c now (.response status (.ok data)) storeNow).result = .ok t ∧
        tokenPresent t = true) ∧
    (∀ (status : Nat) (msg : String), cacheValid c now = false →
      getToken c now (.response status (.error msg)) storeNow = ⟨.error (.badBody msg), c, 1⟩) ∧
    (∀ status : Nat, cacheValid c now = false → respOk status = true →
      getToken c now (.response status (.ok .null)) storeNow
        = ⟨.error (.typeError "access_token"), c, 1⟩) := by
  refine ⟨?_, ?_, ?_, ?_⟩
  · intro ex
    by_cases hv : cacheValid c now = true
    · right; left
      rw [getToken_of_valid hv]
      have ht : truthy c.cachedToken = true := by
        simp only [cacheValid, Bool.and_eq_true] at hv
        exact hv.1
      refine ⟨rfl, rfl, rfl, ht, ?_, ?_, ?_⟩ <;>
        (intro hc; rw [hc] at ht; simp [truthy] at ht)
    · have hs : cacheValid c now = false := by simpa using hv
      rw [getToken_of_stale hs]
      cases hr : (refresh c ex storeNow).1 with
      | error e => exact Or.inl ⟨e, rfl, refresh_error_cache hr⟩
      | ok t =>
        obtain ⟨⟨status, data, hex, hok, hprop⟩, hc⟩ := refresh_ok_inv hr
        right; right
        exact ⟨status, data, t, hex, hok, hprop, rfl, by rw [hc, safety_window_eq]⟩
  · intro status data tok hs hok hprop hne
    rw [getToken_of_stale hs]
    refine ⟨.str tok, ?_, ?_⟩
    · simp [refresh, finishExchange, hok, hprop]
    · simpa [tokenPresent] using hne
  · intro status msg hs
    rw [getToken_of_stale hs]
    rfl
  · intro status hs hok
    rw [getToken_of_stale hs]
    simp [refresh, finishExchange, hok, readProp]

theorem getToken_result_cases_witness :
    ∃ t, (getToken Cache.init 0 (.response 200 (.ok (.obj [("access_token", .str "abc")]))) 5).result
        = .ok t ∧ tokenPresent t = true :=
  (getToken_result_cases Cache.init 0 5).2.1 200 (.obj [("access_token", .str "abc")]) "abc"
    (by decide) (by decide) (by rfl) (by decide)

/-! ## The request handlers -/

theorem missingRequired_iff (body : List (String × JVal)) :
    missingRequired body = true ↔ ∃ k ∈ REQUIRED, truthy (lookup k body) = false := by
  simp [missingRequired, REQUIRED]
  tauto

theorem absentOrEmpty_falsy {v : JVal} (h : absentOrEmpty v = true) : truthy v = false := by
  cases v <;> simp_all [absentOrEmpty, truthy]

/-- What `/calc` does once line 71 let the request through. -/
theorem calcHandler_of_complete (B : Builtins) (c : Cache) (body : List (String × JVal))
    (now : Nat) (ex : Exchange) (storeNow : Nat) (up : Exchange)
    (h : missingRequired body = false) :
    calcHandler B c body now ex storeNow up =
      match (getToken c now ex storeNow).result with
      | .error e => ⟨⟨500, errorBody (e.message B)⟩, (getToken c now ex storeNow).cache,
          List.replicate (getToken c now ex storeNow).exchanges Call.oauth⟩
      | .ok token =>
        match up with
        | .fetchRejects msg => ⟨⟨500, errorBody msg⟩, (getToken c now ex storeNow).cache,
            List.replicate (getToken c now ex storeNow).exchanges Call.oauth
              ++ [Call.tariff (calcPayload B body) token]⟩
        | .response status upBody =>
          match upBody with
          | .error msg => ⟨⟨500, errorBody msg⟩, (getToken c now ex storeNow).cache,
              List.replicate (getToken c now ex storeNow).exchanges Call.oauth
                ++ [Call.tariff (calcPayload B body) token]⟩
          | .ok data =>
            if respOk status then
              match calcSuccessBody data with
              | some okBody => ⟨⟨200, okBody⟩, (getToken c now ex storeNow).cache,
                  List.replicate (getToken c now ex storeNow).exchanges Call.oauth
                    ++ [Call.tariff (calcPayload B body) token]⟩
              | none => ⟨⟨500, errorBody (B.nullReadMessage "tariff_code")⟩,
                  (getToken c now ex storeNow).cache,
                  List.replicate (getToken c now ex storeNow).exchanges Call.oauth
                    ++ [Call.tariff (calcPayload B body) token]⟩
            else ⟨⟨status, .obj [("ok", .bool false), ("error", data)]⟩,
              (getToken c now ex storeNow).cache,
              List.replicate (getToken c now ex storeNow).exchanges Call.oauth
                ++ [Call.tariff (calcPayload B body) token]⟩ := by
  simp only [calcHandler, h]
  rfl

/-- C7, as stated, fails in its converse half. A body whose four required
fields are all present and non-empty, the weight being the number `0`, is
answered with the 400 of line 72 and no token is asked for. A body with four
non-empty strings is answered with status 400 when the tariff calculator
answers 400. And when no token can be obtained the tariff calculator is not
called. -/
theorem calc_complete_body_rejected :
    (REQUIRED.all (fun k => !absentOrEmpty (lookup k zeroWeightBody))) = true ∧
    (calcHandler sampleBuiltins Cache.init zeroWeightBody 0 tokenGranted 1
        (.response 200 (.ok (.obj [])))).response = ⟨400, errorBody MISSING_PARAMS⟩ ∧
    (calcHandler sampleBuiltins Cache.init zeroWeightBody 0 tokenGranted 1
        (.response 200 (.ok (.obj [])))).calls = [] ∧
    (REQUIRED.all (fun k => !absentOrEmpty (lookup k completeBody))) = true ∧
    (calcHandler sampleBuiltins Cache.init completeBody 0 tokenGranted 1
        (.response 400 (.ok (.obj [("errors", .arr [])])))).response.status = 400 ∧
    (calcHandler sampleBuiltins Cache.init completeBody 0 tokenDenied 1
        (.response 200 (.ok (.obj [])))).calls = [.oauth] := by
  refine ⟨by rfl, by rfl, by rfl, by rfl, by rfl, by rfl⟩

/-- C7, amended. If at least one of `from_code`, `to_code`, `weight`,
`tariff_code` is falsy (absent, `null`, the empty string, `0` or `false`), in
particular absent or empty, `/calc` answers 400 with
`{ok: false, error: "Отсутствуют обязательные параметры"}`, sends nothing
upstream and leaves the cache alone. If all four are truthy, the handler runs
`getToken`; when that resolves to a token it sends exactly one request to the
tariff calculator, built from the body and that token, after the requests
`getToken` made; when it fails the answer is 500 and the calculator is not
called; and the answer has status 400 only if the calculator answered 400. -/
theorem calc_validation (B : Builtins) (c : Cache) (body : List (String × JVal))
    (now : Nat) (ex : Exchange) (storeNow : Nat) (up : Exchange) :
    ((∃ k ∈ REQUIRED, truthy (lookup k body) = false) →
      calcHandler B c body now ex storeNow up = ⟨⟨400, errorBody MISSING_PARAMS⟩, c, []⟩) ∧
    ((∃ k ∈ REQUIRED, absentOrEmpty (lookup k body) = true) →
      calcHandler B c body now ex storeNow up = ⟨⟨400, errorBody MISSING_PARAMS⟩, c, []⟩) ∧
    ((∀ k ∈ REQUIRED, truthy (lookup k body) = true) →
      (calcHandler B c body now ex storeNow up).cache = (getToken c now ex storeNow).cache ∧
      (∀ token, (getToken c now ex storeNow).result = .ok token →
        (calcHandler B c body now ex storeNow up).calls
          = List.replicate (getToken c now ex storeNow).exchanges Call.oauth
            ++ [Call.tariff (calcPayload B body) token]) ∧
      (∀ e, (getToken c now ex storeNow).result = .error e →
        (calcHandler B c body now ex storeNow up).response = ⟨500, errorBody (e.message B)⟩ ∧
        (calcHandler B c body now ex storeNow up).calls
          = List.replicate (getToken c now ex storeNow).exchanges Call.oauth) ∧
      ((calcHandler B c body now ex storeNow up).response.status = 400 →
        ∃ data, up = .response 400 (.ok data))) := by
  have hmiss : (∃ k ∈ REQUIRED, truthy (lookup k body) = false) →
      calcHandler B c body now ex storeNow up = ⟨⟨400, errorBody MISSING_PARAMS⟩, c, []⟩ := by
    intro h
    simp [calcHandler, (missingRequired_iff body).mpr h]
  refine ⟨hmiss, ?_, ?_⟩
  · rintro ⟨k, hk, habs⟩
    exact hmiss ⟨k, hk, absentOrEmpty_falsy habs⟩
  · intro hall
    have hm : missingRequired body = false := by
      cases hmr : missingRequired body with
      | false => rfl
      | true =>
        obtain ⟨k, hk, hf⟩ := (missingRequired_iff body).mp hmr
        rw [hall k hk] at hf
        cases hf
    rw [calcHandler_of_complete B c body now ex storeNow up hm]
    cases hr : (getToken c now ex storeNow).result with
    | error e =>
      refine ⟨rfl, ?_, ?_, ?_⟩
      · intro token ht; cases ht
      · intro e2 he
        cases he
        exact ⟨rfl, rfl⟩
      · intro h400
        simp at h400
    | ok token =>
      cases up with
      | fetchRejects msg =>
        refine ⟨rfl, ?_, ?_, ?_⟩
        · intro t2 ht; cases ht; rfl
        · intro e he; cases he
        · intro h400; simp at h400
      | response status upBody =>
        cases upBody with
        | error msg =>
          refine ⟨rfl, ?_, ?_, ?_⟩
          · intro t2 ht; cases ht; rfl
          · intro e he; cases he
          · intro h400; simp at h400
        | ok data =>
          by_cases hok : respOk status = true
          · simp only [hok, if_true]
            cases calcSuccessBody data with
            | none =>
              refine ⟨rfl, ?_, ?_, ?_⟩
              · intro t2 ht; cases ht; rfl
              · intro e he; cases he
              · intro h400; simp at h400
            | some okBody =>
              refine ⟨rfl, ?_, ?_, ?_⟩
              · intro t2 ht; cases ht; rfl
              · intro e he; cases he
              · intro h400; simp at h400
          · simp only [hok]
            refine ⟨rfl, ?_, ?_, ?_⟩
            · intro t2 ht; cases ht; rfl
            · intro e he; cases he
            · intro h400
              simp only [Bool.false_eq_true, if_false] at h400
              exact ⟨data, by rw [h400]⟩

theorem calc_validation_witness :
    calcHandler sampleBuiltins Cache.init noFromCodeBody 0 tokenGranted 1 (.fetchRejects "unused")
      = ⟨⟨400, errorBody MISSING_PARAMS⟩, Cache.init, []⟩ ∧
    (calcHandler sampleBuiltins Cache.init completeBody 0 tokenGranted 1
        (.response 200 (.ok tariffDoc))).calls
      = [.oauth, .tariff (calcPayload sampleBuiltins completeBody) (.str "tok")] :=
  ⟨(calc_validation sampleBuiltins Cache.init noFromCodeBody 0 tokenGranted 1
      (.fetchRejects "unused")).2.1 ⟨"from_code", by simp [REQUIRED], by rfl⟩,
   ((calc_validation sampleBuiltins Cache.init completeBody 0 tokenGranted 1
      (.response 200 (.ok tariffDoc))).2.2
      (by intro k hk
          simp only [REQUIRED, List.mem_cons, List.mem_singleton, List.not_mem_nil,
            or_false] at hk
          rcases hk with rfl | rfl | rfl | rfl <;> rfl)).2.1 (.str "tok") (by rfl)⟩

/-- C8, as stated, fails: when the city lookup answers with the success status
201, `/cities` answers 200. -/
theorem cities_success_status_not_kept :
    respOk 201 = true ∧
    (citiesHandler sampleBuiltins Cache.init [("country_code", .str "RU")] 0 tokenGranted 1
      (.response 201 (.ok (.obj [("code", .num 44)])))).response
        = ⟨200, .obj [("code", .num 44)]⟩ := by
  refine ⟨by rfl, by rfl⟩

/-- C8, amended. For every city-lookup response with status `s` and JSON body
`b`, obtained after `getToken` resolved, `/cities` answers with exactly body `b`
and with status 200 when `s` is a success status (200-299), status `s`
otherwise; so a failure status such as 403 is passed through unchanged, and
every success status is reported as 200. One lookup request is sent, with the
token `getToken` resolved to. -/
theorem cities_passthrough (B : Builtins) (c : Cache) (query : List (String × JVal))
    (now : Nat) (ex : Exchange) (storeNow status : Nat) (b token : JVal)
    (htok : (getToken c now ex storeNow).result = .ok token) :
    (citiesHandler B c query now ex storeNow (.response status (.ok b))).response
      = ⟨if respOk status then 200 else status, b⟩ ∧
    (respOk status = false →
      (citiesHandler B c query now ex storeNow (.response status (.ok b))).response
        = ⟨status, b⟩) ∧
    (respOk status = true →
      (citiesHandler B c query now ex storeNow (.response status (.ok b))).response
        = ⟨200, b⟩) ∧
    (citiesHandler B c query now ex storeNow (.response status (.ok b))).calls
      = List.replicate (getToken c now ex storeNow).exchanges Call.oauth
        ++ [Call.cities (cityParams query) token] := by
  have hresp : (citiesHandler B c query now ex storeNow (.response status (.ok b))).response
      = ⟨if respOk status then 200 else status, b⟩ := by
    simp only [citiesHandler, htok]
  refine ⟨hresp, ?_, ?_, ?_⟩
  · intro h
    rw [hresp]
    simp [h]
  · intro h
    rw [hresp]
    simp [h]
  · simp only [citiesHandler, htok]

theorem cities_passthrough_witness :
    (citiesHandler sampleBuiltins Cache.init [("country_code", .str "RU")] 0 tokenGranted 1
      (.response 403 (.ok (.obj [("message", .str "forbidden")])))).response
        = ⟨403, .obj [("message", .str "forbidden")]⟩ :=
  (cities_passthrough sampleBuiltins Cache.init [("country_code", .str "RU")] 0 tokenGranted 1
    403 (.obj [("message", .str "forbidden")]) (.str "tok") (by rfl)).2.1 (by rfl)

theorem calcSuccessBody_of_readable {d : JVal} (hnull : d ≠ .null) (hundef : d ≠ .undefined) :
    calcSuccessBody d = some (calcOkBody d) := by
  cases d <;> first
    | exact absurd rfl hnull
    | exact absurd rfl hundef
    | rfl

/-- C9, as stated, fails for the JSON body `null`: with a success status the
handler throws while reading `data.tariff_code` and answers 500. -/
theorem calc_null_document_is_500 :
    (calcHandler sampleBuiltins Cache.init completeBody 0 tokenGranted 1
      (.response 200 (.ok .null))).response
        = ⟨500, errorBody (sampleBuiltins.nullReadMessage "tariff_code")⟩ := by
  rfl

/-- C9, amended. For every `/calc` request that passes line 71 and for which
`getToken` resolved, and every tariff-calculator response with status `s` and
JSON body `d`: if the status is a success status and `d` is not `null`, the
answer is 200 with exactly `{ok: true, tariff_code: d.tariff_code, tariff_name:
d.tariff_name, delivery_sum: d.delivery_sum, period_min: d.period_min,
period_max: d.period_max}` and no other field of `d`; if the status is not a
success status, the answer is status `s` with `{ok: false, error: d}`, for
every `d`. -/
theorem calc_response_mapping (B : Builtins) (c : Cache) (body : List (String × JVal))
    (now : Nat) (ex : Exchange) (storeNow s : Nat) (d token : JVal)
    (hvalid : missingRequired body = false)
    (htok : (getToken c now ex storeNow).result = .ok token) :
    (respOk s = true → d ≠ .null → d ≠ .undefined →
      (calcHandler B c body now ex storeNow (.response s (.ok d))).response
        = ⟨200, calcOkBody d⟩) ∧
    (respOk s = false →
      (calcHandler B c body now ex storeNow (.response s (.ok d))).response
        = ⟨s, .obj [("ok", .bool false), ("error", d)]⟩) := by
  rw [calcHandler_of_complete B c body now ex storeNow _ hvalid]
  simp only [htok]
  constructor
  · intro hok hnull hundef
    simp only [hok, if_true, calcSuccessBody_of_readable hnull hundef]
  · intro hbad
    simp [hbad]

theorem calc_response_mapping_witness :
    (calcHandler sampleBuiltins Cache.init completeBody 0 tokenGranted 1
      (.response 200 (.ok tariffDoc))).response
        = ⟨200, .obj [("ok", .bool true), ("tariff_code", .num 1), ("tariff_name", .str "X"),
            ("delivery_sum", .num 100), ("period_min", .num 1), ("period_max", .num 3)]⟩ :=
  (calc_response_mapping sampleBuiltins Cache.init completeBody 0 tokenGranted 1 200 tariffDoc
    (.str "tok") (by rfl) (by rfl)).1 (by rfl) (by intro h; cases h) (by intro h; cases h)

/-- C10, as stated, fails. With an OAuth endpoint that answers 401, a `/calc`
call whose body lacks `from_code` is answered 400, not 500. And when
the endpoint answers a non-success status with a body that is not JSON, the error
text of the 500 is the message of the parse failure, not the payload. -/
theorem auth_failure_not_always_500 :
    cacheValid Cache.init 0 = false ∧ respOk 401 = false ∧
    (calcHandler sampleBuiltins Cache.init noFromCodeBody 0 tokenDenied 1
      (.fetchRejects "unused")).response = ⟨400, errorBody MISSING_PARAMS⟩ ∧
    (citiesHandler sampleBuiltins Cache.init [] 0
      (.response 502 (.error "Unexpected token < in JSON at position 0")) 1
      (.fetchRejects "unused")).response
        = ⟨500, errorBody "Unexpected token < in JSON at position 0"⟩ := by
  refine ⟨by rfl, by rfl, by rfl, by rfl⟩

/-- C10, amended. Whenever the cache holds no valid token and the
OAuth endpoint answers with a non-success status, every `/cities` call, and every
`/calc` call that passes line 71, is answered 500 with `{ok: false, error: m}`,
the only request sent is the one to the OAuth endpoint, and the cache is left
as it was. When the body of the OAuth answer is a JSON document `d`, `m` is
`"Ошибка авторизации: "` followed by `JSON.stringify(d)`; when that body cannot
be parsed, `m` is the message of the parse failure. -/
theorem auth_failure_propagates (B : Builtins) (c : Cache) (now status : Nat)
    (oauthBody : Except String JVal) (storeNow : Nat)
    (hstale : cacheValid c now = false) (hbad : respOk status = false) :
    (∀ (query : List (String × JVal)) (up : Exchange),
      citiesHandler B c query now (.response status oauthBody) storeNow up
        = ⟨⟨500, errorBody ((exchangeError (.response status oauthBody)).message B)⟩, c,
            [.oauth]⟩) ∧
    (∀ (body : List (String × JVal)) (up : Exchange), missingRequired body = false →
      calcHandler B c body now (.response status oauthBody) storeNow up
        = ⟨⟨500, errorBody ((exchangeError (.response status oauthBody)).message B)⟩, c,
            [.oauth]⟩) ∧
    (∀ d : JVal, (exchangeError (.response status (.ok d))).message B
      = "Ошибка авторизации: " ++ B.stringify d) ∧
    (∀ msg : String, (exchangeError (.response status (.error msg))).message B = msg) := by
  have hun : unsuccessful (.response status oauthBody) = true := by
    cases oauthBody <;> simp [unsuccessful, hbad]
  have hget := getToken_of_stale hstale (.response status oauthBody) storeNow
  rw [refresh_unsuccessful storeNow hun] at hget
  refine ⟨?_, ?_, ?_, ?_⟩
  · intro query up
    simp only [citiesHandler, hget]
    rfl
  · intro body up hvalid
    rw [calcHandler_of_complete B c body now _ storeNow up hvalid]
    simp only [hget]
    rfl
  · intro d
    rfl
  · intro msg
    rfl

theorem auth_failure_propagates_witness :
    calcHandler sampleBuiltins Cache.init completeBody 0 tokenDenied 1 (.fetchRejects "unused")
      = ⟨⟨500, errorBody ("Ошибка авторизации: " ++ "v")⟩, Cache.init, [.oauth]⟩ :=
  (auth_failure_propagates sampleBuiltins Cache.init 0 401
    (.ok (.obj [("error", .str "invalid_client")])) 1 (by rfl) (by rfl)).2.1
    completeBody (.fetchRejects "unused") (by rfl)

end CdekProxy
